import Mathlib

/-!
# Verification of the kino-bey interaction engine (`src/index.js`)

A shallow embedding of the stateful core of the bot: the per-chat session
store, the admin wizard state machine (`handleAdminInput`), the flood
limiters, the admin-permission cache, the subscription gate
(`checkSubscription`), the broadcast controller (`startBroadcast`) and the
rating handler (`handleRating`).

Conventions of the embedding:
* Timestamps (`Date.now()`) are natural numbers (milliseconds).  In the
  source, `now - last` can in principle be negative only when the clock
  runs backwards; on naturals truncated subtraction yields `0`, which takes
  the same branch (`0 < window`) as a negative JS number, so `Nat` is
  faithful for the comparisons the code performs.
* Mongo collections are lists of records; `findOne` is `List.find?` (first
  match), `create` appends, `updateOne` rewrites the first matching record.
* Outbound transport calls (`sendMessage`, `answerCallbackQuery`,
  `copyMessage`, panels and keyboards) are recorded as `Event`s; the
  literal user-facing strings of the source are represented by the
  constructors of `Reply` (one constructor per distinct message, carrying
  the dynamic payload the string interpolates).
* Fallible transport calls whose result the code branches on
  (`getChatMember`, `getChat`, `copyMessage`) are supplied as oracles.
-/

set_option linter.unusedVariables false

namespace Kino

/-! ## JS-level helpers -/

/-- JS truthiness of an optional string: `undefined` and `""` are falsy. -/
def optStrTruthy : Option String → Bool
  | some s => s != ""
  | none => false

/-- JS truthiness of an optional number (used for `user.birthYear`,
`user.lastMessageId`, `msgId` in `safeDelete`): `undefined` and `0` are falsy. -/
def optNatTruthy : Option Nat → Bool
  | some n => n != 0
  | none => false

def optIntTruthy : Option Int → Bool
  | some n => n != 0
  | none => false

/-- `(msg.text || msg.caption || '')` for optional strings: first truthy value. -/
def jsOrStr (a b : Option String) : String :=
  if optStrTruthy a then a.getD "" else if optStrTruthy b then b.getD "" else ""

def isWhitespaceChar (c : Char) : Bool :=
  c == ' ' || c == '\t' || c == '\n' || c == '\r'

/-- JS `String.prototype.trim()` on the character list (the exotic Unicode
whitespace JS also strips never occurs in the inputs this program handles). -/
def trimChars (cs : List Char) : List Char :=
  ((cs.dropWhile isWhitespaceChar).reverse.dropWhile isWhitespaceChar).reverse

def jsTrim (s : String) : String :=
  String.mk (trimChars s.toList)

/-- Leading decimal digits of a character list (`parseInt` stops at the first
non-digit). -/
def takeDigits : List Char → List Char
  | [] => []
  | c :: cs => if c.isDigit then c :: takeDigits cs else []

def digitsToNat (ds : List Char) : Nat :=
  ds.foldl (fun a c => 10 * a + (c.toNat - 48)) 0

/-- JavaScript `parseInt(s)` in radix 10 on an already-trimmed string:
optional sign, then the maximal run of leading decimal digits; `none` is
`NaN` (no digits).  The `0x` autodetection of `parseInt` is irrelevant to the
inputs this program feeds it (trimmed user text) and is not modelled. -/
def parseIntJS (s : String) : Option Int :=
  match s.toList with
  | '-' :: r => (takeDigits r) |> fun ds => if ds.isEmpty then none else some (-(digitsToNat ds : Int))
  | '+' :: r => (takeDigits r) |> fun ds => if ds.isEmpty then none else some ((digitsToNat ds : Int))
  | r => (takeDigits r) |> fun ds => if ds.isEmpty then none else some ((digitsToNat ds : Int))

/-- `/^\d+$/.test(s)`: non-empty and all decimal digits. -/
def isAllDigits (s : String) : Bool :=
  s != "" && s.toList.all Char.isDigit

/-- One character of `sanitize`'s four sequential global replacements.
Replacing `&` first and then `<`, `>`, `"` is equivalent to this single
character-wise map, because the ampersands introduced by the later
replacements are never revisited. -/
def sanitizeChar (c : Char) : String :=
  if c = '&' then "&amp;"
  else if c = '<' then "&lt;"
  else if c = '>' then "&gt;"
  else if c = '"' then "&quot;"
  else String.singleton c

/-- `sanitize(str)` from the source: falsy input gives `""`, otherwise
HTML-escape then trim. -/
def sanitize (s : String) : String :=
  if s = "" then "" else jsTrim (String.join (s.toList.map sanitizeChar))

def sanitizeOpt (s : Option String) : String :=
  sanitize (s.getD "")

/-- `const text = (msg.text || msg.caption || '').trim()`. -/
def msgTextOf (t c : Option String) : String :=
  jsTrim (jsOrStr t c)

/-! ## Association-list maps (the in-memory `Map`s of the source) -/

def alookup {α : Type} (m : List (Int × α)) (k : Int) : Option α :=
  (m.find? (fun e => e.1 == k)).map (·.2)

def aset {α : Type} (m : List (Int × α)) (k : Int) (v : α) : List (Int × α) :=
  (k, v) :: m.filter (fun e => e.1 != k)

def aerase {α : Type} (m : List (Int × α)) (k : Int) : List (Int × α) :=
  m.filter (fun e => e.1 != k)

theorem alookup_aset_self {α : Type} (m : List (Int × α)) (k : Int) (v : α) :
    alookup (aset m k v) k = some v := by
  simp [alookup, aset]

theorem alookup_aerase_self {α : Type} (m : List (Int × α)) (k : Int) :
    alookup (aerase m k) k = none := by
  simp only [alookup, aerase]
  rw [List.find?_eq_none.mpr]
  · rfl
  · intro e he
    have := (List.mem_filter.mp he).2
    simpa [bne] using this

/-! ## Configuration constants (`CONFIG`) -/

def floodLimit : Nat := 800
def downloadCooldown : Nat := 5000
def stateTTL : Nat := 30 * 60 * 1000
def adminCacheTTL : Nat := 60 * 1000

/-! ## Rate limiter (`isFlooding`, `isDownloadFlooding`) -/

/-- `isFlooding(userId)`: below the window ⇒ `true` without touching the map,
otherwise record `now` and return `false`. -/
def isFlooding (floodMap : List (Int × Nat)) (userId : Int) (now : Nat) :
    Bool × List (Int × Nat) :=
  let last := (alookup floodMap userId).getD 0
  if now - last < floodLimit then (true, floodMap)
  else (false, aset floodMap userId now)

/-- `isDownloadFlooding(userId)`: same shape with the 5 s window. -/
def isDownloadFlooding (dlMap : List (Int × Nat)) (userId : Int) (now : Nat) :
    Bool × List (Int × Nat) :=
  let last := (alookup dlMap userId).getD 0
  if now - last < downloadCooldown then (true, dlMap)
  else (false, aset dlMap userId now)

/-! ## Persisted records (the Mongo schemas) -/

inductive CType | movie | series
deriving DecidableEq, Repr

inductive ChType | main | movie_codes
deriving DecidableEq, Repr

structure Episode where
  number : Nat
  fileId : String
  name : String := ""
deriving DecidableEq, Repr

structure Movie where
  /-- surrogate for the Mongo `_id` -/
  mid : Nat
  code : Int
  contentType : CType := .movie
  title : String := ""
  posterId : Option String := none
  country : String := ""
  language : String := ""
  quality : Option String := none
  duration : Option String := none
  isAdult : Bool := false
  fileId : Option String := none
  episodes : List Episode := []
  views : Nat := 0
  downloads : Nat := 0
  ratingSum : Int := 0
  ratingCount : Nat := 0
  ratedUsers : List Int := []
  addedBy : Int := 0
deriving DecidableEq, Repr

structure DbUser where
  telegramId : Int
  firstName : String := ""
  username : Option String := none
  birthYear : Option Int := none
  isBanned : Bool := false
  isActive : Bool := true
  lastMessageId : Option Nat := none
  canDownload : Bool := true
  contentProtected : Bool := false
deriving DecidableEq, Repr

structure Channel where
  channelId : String
  name : String := ""
  url : String := ""
  ctype : ChType := .main
deriving DecidableEq, Repr

structure Settings where
  globalProtection : Bool := false
  globalDownload : Bool := true
  autoPost : Bool := true
deriving DecidableEq, Repr

inductive Perm | movies | channels | settings | users | broadcast | admins
deriving DecidableEq, Repr

structure Permissions where
  movies : Bool := true
  channels : Bool := true
  settings : Bool := false
  users : Bool := true
  broadcast : Bool := false
  admins : Bool := false
deriving DecidableEq, Repr

def Permissions.get (p : Permissions) : Perm → Bool
  | .movies => p.movies
  | .channels => p.channels
  | .settings => p.settings
  | .users => p.users
  | .broadcast => p.broadcast
  | .admins => p.admins

structure AdminRec where
  telegramId : Int
  addedBy : Int
  permissions : Permissions := {}
deriving DecidableEq, Repr

/-- The persisted store, as one bag of collections. -/
structure Stores where
  users : List DbUser := []
  movies : List Movie := []
  channels : List Channel := []
  admins : List AdminRec := []
  settings : Option Settings := none
deriving DecidableEq, Repr

/-! ## Permission cache (`adminCache`, `isUserAdmin`, `hasPermission`) -/

structure CacheEntry where
  isAdmin : Bool
  expire : Nat
deriving DecidableEq, Repr

abbrev AdminCache := List (Int × CacheEntry)

/-- `isUserAdmin(userId)`: super admin short-circuits; an unexpired cache
entry is served as-is; otherwise the admin table is consulted and the boolean
is cached with a fresh expiry. -/
def isUserAdmin (superAdminId : Int) (cache : AdminCache) (admins : List AdminRec)
    (userId : Int) (now : Nat) : Bool × AdminCache :=
  if userId == superAdminId then (true, cache)
  else
    match alookup cache userId with
    | some c =>
      if now < c.expire then (c.isAdmin, cache)
      else
        let isAdm := (admins.find? (fun a => a.telegramId == userId)).isSome
        (isAdm, aset cache userId ⟨isAdm, now + adminCacheTTL⟩)
    | none =>
      let isAdm := (admins.find? (fun a => a.telegramId == userId)).isSome
      (isAdm, aset cache userId ⟨isAdm, now + adminCacheTTL⟩)

/-- `hasPermission(userId, perm)`: super admin short-circuits; otherwise the
persisted admin record is re-read directly (never the cache). -/
def hasPermission (superAdminId : Int) (admins : List AdminRec)
    (userId : Int) (p : Perm) : Bool :=
  if userId == superAdminId then true
  else
    match admins.find? (fun a => a.telegramId == userId) with
    | none => false
    | some a => a.permissions.get p

/-! ## Events: the outbound transport calls the core makes -/

/-- The distinct user-facing message strings of the source, with their
dynamic payloads.  Each constructor stands for one literal string. -/
inductive Reply where
  /-- "⚠️ Sessiya vaqti tugadi. Qaytadan urinib koʼring." -/
  | sessionExpired
  /-- "❌ Iltimos, toʼgʼri yil kiriting (1950-current):" -/
  | badBirthYear (currentYear : Int)
  /-- "✅ Maʼlumot saqlandi! Botdan foydalanishingiz mumkin." -/
  | birthYearSaved
  /-- "👋 Assalomu alaykum! Tugʼilgan yilingizni yozing (Masalan: 2004):" -/
  | askBirthYear
  /-- "🎬 Professional Kino Bot — 🔎 Kino kodini yuboring:" plus the codes-channel button -/
  | welcome (codesChannelUrl : Option String)
  /-- "⛔️ Ushbu amal uchun ruxsat yoʼq!" -/
  | noPermission
  /-- "❌ Video yuboring!" -/
  | needVideo
  /-- "❌ Rasm yuboring!" -/
  | needPhoto
  /-- "🖼 Poster (Rasm) yuboring:" -/
  | askPoster
  /-- "✍️ Nomini yozing:" -/
  | askTitle
  /-- "🌍 Davlat:" -/
  | askCountry
  /-- "🗣 Til:" -/
  | askLang
  /-- "🔞 Yosh chegarasi (18+)?" with the yes/no keyboard -/
  | askAdult
  /-- "❌ Faqat raqam!" -/
  | onlyNumber
  /-- "⚠️ Bu kod band! Boshqa kod yozing." -/
  | codeTaken
  /-- "✅ Kino/Serial qoʼshildi! Kod: n" -/
  | contentAdded (ctype : CType) (code : Int)
  /-- "❌ Serial bazadan topilmadi." -/
  | seriesGone
  /-- "❌ Video (keyingi qism) yuboring!" -/
  | needEpisodeVideo
  /-- "✍️ n-qism uchun nom yozing:" -/
  | askEpisodeName (n : Nat)
  /-- "✅ n-qism (name) muvaffaqiyatli qoʼshildi!" -/
  | episodeAdded (n : Nat) (name : String)
  /-- "✍️ Kanal tugmasida nima deb yozilsin?" -/
  | askChannelName
  /-- "🔗 Kanal Usernamesi yoki Linkini yuboring:" -/
  | askChannelUrl
  /-- "✅ Kanal muvaffaqiyatli qoʼshildi! ID/Nom" -/
  | channelAdded (channelId : String) (name : String)
  /-- "❌ Xatolik! …" (channel resolution failed) -/
  | channelAddError
  /-- "❌ Topilmadi." (edit search) -/
  | editNotFound
  /-- "✅ Muvaffaqiyatli oʼzgartirildi!" -/
  | fieldEdited
  /-- "❌ Kino topilmadi." (edit field, record vanished) -/
  | movieGone
  /-- "📢 Tasdiqlaysizmi?" with confirm/cancel keyboard -/
  | confirmBroadcast
  /-- "❌ Faqat raqamli ID kiriting!" -/
  | onlyNumericId
  /-- "❌ User topilmadi" -/
  | userNotFound
  /-- "❌ Faqat raqamli ID!" -/
  | onlyNumericAdminId
  /-- "❌ Super Admin daxlsiz" -/
  | superAdminUntouchable
  /-- "❌ Iltimos, rasm yuboring!" (edit-field poster) -/
  | needPhotoEdit
  /-- "❌ Video fayl yuboring!" (edit-field file) -/
  | needVideoEdit
  /-- "⚠️ Tizim xatoligi yuz berdi. Qayta urinib koʼring." -/
  | systemError
  /-- "⚠️ Hozirda boshqa reklama ketmoqda!" -/
  | broadcastBusy
  /-- "🚀 Reklama boshlandi..." with the stop button -/
  | broadcastStarted
  /-- "🛑 Reklama toʼxtatildi! ✅ Yuborildi: n" -/
  | broadcastStopped (delivered : Nat)
  /-- "📊 Tugadi: ✅ n 🚫 m ⏱ …" -/
  | broadcastDone (delivered blocked : Nat)
  /-- "🛑 Toʼxtatilmoqda..." (callback answer) -/
  | stopping
  /-- "⚠️ Reklama jarayoni yoʼq." (callback answer, alert) -/
  | nothingToStop
  /-- "⭐️ n baho qabul qilindi!" (callback answer) -/
  | ratingAccepted (score : Int)
  /-- "⛔️ Siz allaqachon ovoz bergansiz!" (callback answer, alert) -/
  | alreadyVoted
  /-- "Tizim xatosi!" (callback answer) -/
  | callbackSystemError
deriving DecidableEq, Repr

/-- Outbound effects.  Presentation-only subroutines (`showMovieCard`,
`showAdminPanel`, …) are recorded as call events; their rendering is outside
the verified core. -/
inductive Event where
  | send (chatId : Int) (r : Reply)
  | sendPhotoTo (target : String) (photoId : Option String) (code : Int)
  | answerCb (r : Reply)
  | deleteMsg (chatId : Int) (msgId : Nat)
  | logError (tag : String)
  | showMovieCard (chatId : Int) (code : String)
  | showAdminPanel (chatId : Int)
  | showEditMoviePanel (chatId : Int) (mid : Nat)
  | showChannelsPanel (chatId : Int)
  | showUserManagePanel (chatId : Int) (uid : Int)
  | showAdminPermsPanel (chatId : Int) (uid : Int)
  | sendSubRequest (chatId : Int) (channelIds : List String)
deriving DecidableEq, Repr

/-! ## Subscription gate (`checkSubscription`) -/

inductive MemberStatus | creator | administrator | member | restricted | left | kicked
deriving DecidableEq, Repr

structure SubCheckRes where
  missing : List Channel
  cache : AdminCache
  /-- channel ids for which `getChatMember` was actually called -/
  queried : List String
  events : List Event
deriving DecidableEq, Repr

/-- One iteration of the `for (const ch of channels)` loop: a transport
error is logged and the channel skipped; status `left`/`kicked` marks the
channel missing. -/
def subStep (member : String → Except Unit MemberStatus)
    (acc : List Channel × List String × List Event) (ch : Channel) :
    List Channel × List String × List Event :=
  match member ch.channelId with
  | .ok s =>
    if s == .left || s == .kicked then
      (acc.1 ++ [ch], acc.2.1 ++ [ch.channelId], acc.2.2)
    else
      (acc.1, acc.2.1 ++ [ch.channelId], acc.2.2)
  | .error _ =>
    (acc.1, acc.2.1 ++ [ch.channelId], acc.2.2 ++ [.logError ch.channelId])

/-- `checkSubscription(userId)`: admins are exempt (no membership query);
with no configured channels the answer is empty; otherwise every channel is
checked, errors never aborting the loop. -/
def checkSubscription (superAdminId : Int) (cache : AdminCache)
    (admins : List AdminRec) (channels : List Channel) (userId : Int) (now : Nat)
    (member : String → Except Unit MemberStatus) : SubCheckRes :=
  let adm := isUserAdmin superAdminId cache admins userId now
  if adm.1 then ⟨[], adm.2, [], []⟩
  else if channels.isEmpty then ⟨[], adm.2, [], []⟩
  else
    let r := channels.foldl (subStep member) ([], [], [])
    ⟨r.1, adm.2, r.2.1, r.2.2⟩

/-! ## Inbound messages and sessions -/

structure Video where
  file_id : String
  width : Nat := 0
  duration : Nat := 0
deriving DecidableEq, Repr

/-- An inbound Telegram message, restricted to the fields the core reads.
`photo` is the array of sizes (file ids, largest last); an absent `photo`
field is `none` (note an *empty* array would still be truthy in JS, which the
`Option` faithfully mirrors). -/
structure Msg where
  message_id : Nat := 0
  chat_id : Int := 0
  text : Option String := none
  caption : Option String := none
  video : Option Video := none
  photo : Option (List String) := none
  fromFirstName : Option String := none
  fromUsername : Option String := none
deriving DecidableEq, Repr

def Msg.contentText (m : Msg) : String := msgTextOf m.text m.caption

inductive SAction
  | ASK_BIRTH_YEAR | WAITING_SUB | ADD_CONTENT | ADD_EPISODE | ADD_CHANNEL
  | EDIT_SEARCH | EDIT_FIELD | BROADCAST | SEARCH_USER | MANAGE_ADMIN_ID
deriving DecidableEq, Repr

inductive SStep | VIDEO | POSTER | TITLE | COUNTRY | LANG | ADULT | CODE | NAME | URL
deriving DecidableEq, Repr

/-- Editable fields of `ed_f_<field>_<movieId>` callbacks. -/
inductive EField | title | country | posterId | fileId
deriving DecidableEq, Repr

/-- `st.data`, the accumulating draft of a wizard. -/
structure Draft where
  fileId : Option String := none
  quality : Option String := none
  duration : Option String := none
  posterId : Option String := none
  title : Option String := none
  country : Option String := none
  language : Option String := none
  isAdult : Option Bool := none
  name : Option String := none
deriving DecidableEq, Repr

/-- A session object held in the `state` map; absent JS fields are `none`. -/
structure Session where
  action : SAction
  step : Option SStep := none
  data : Draft := {}
  contentType : Option CType := none
  chanType : Option ChType := none
  movieId : Option Nat := none
  field : Option EField := none
  tempEpisodeData : Option (String × String) := none
  pendingCode : Option String := none
  permissionRequired : Option Perm := none
  timestamp : Nat := 0
  msg : Option Msg := none
deriving DecidableEq, Repr

abbrev SessMap := List (Int × Session)

/-! ## Admin wizard state machine (`handleAdminInput`) -/

def detectQuality (w : Nat) : String :=
  if w = 0 then "480p"
  else if w ≥ 3840 then "4K UHD"
  else if w ≥ 1920 then "1080p FHD"
  else if w ≥ 1280 then "720p HD"
  else "480p HQ"

def pad2 (n : Nat) : String := if n < 10 then "0" ++ toString n else toString n

def formatDuration (d : Nat) : String :=
  if d = 0 then "00:00"
  else
    let h := d / 3600
    let m := (d % 3600) / 60
    let s := d % 60
    (if h > 0 then toString h ++ ":" else "") ++ toString m ++ ":" ++ pad2 s

/-- The username/link normalisation of the `ADD_CHANNEL` URL step. -/
def channelUsername (text : String) : String :=
  let parts := text.splitOn "t.me/"
  if parts.length > 1 then
    let afterHost := ((parts.get? 1).getD "").splitOn "/" |>.headD ""
    "@" ++ (afterHost.splitOn "?" |>.headD "")
  else if !(text.startsWith "@") && !(text.startsWith "-100") then "@" ++ text
  else text

/-- `/^-100\d+$/.test(text)`. -/
def isRawChannelId (text : String) : Bool :=
  text.startsWith "-100" && isAllDigits (text.drop 4)

/-- `Channel.findOneAndUpdate({channelId}, {...}, {upsert: true})`; `channelId`
carries a unique index, so at most one record matches. -/
def upsertChannel (channels : List Channel) (cid nm url : String) (t : ChType) :
    List Channel :=
  if (channels.find? (fun c => c.channelId == cid)).isSome then
    channels.map (fun c =>
      if c.channelId == cid then { channelId := cid, name := nm, url := url, ctype := t } else c)
  else channels ++ [{ channelId := cid, name := nm, url := url, ctype := t }]

/-- `movie.save()`: rewrite the record with the same `_id`. -/
def saveMovie (movies : List Movie) (m : Movie) : List Movie :=
  movies.map (fun x => if x.mid == m.mid then m else x)

/-- A fresh Mongo `_id` surrogate for `Movie.create`. -/
def freshMid (movies : List Movie) : Nat :=
  (movies.foldl (fun a m => max a m.mid) 0) + 1

/-- The record built by the final `CODE` step:
`{ code, ...st.data, addedBy, contentType }`, with the series shape swapping
`fileId` for a single first episode. -/
def draftMovie (st : Session) (chatId : Int) (code : Int) (mid : Nat) : Movie :=
  let base : Movie := {
    mid := mid
    code := code
    contentType := st.contentType.getD .movie
    title := st.data.title.getD ""
    posterId := st.data.posterId
    country := st.data.country.getD ""
    language := st.data.language.getD ""
    quality := st.data.quality
    duration := st.data.duration
    isAdult := st.data.isAdult.getD false
    fileId := st.data.fileId
    addedBy := chatId }
  if st.contentType == some .series then
    { base with episodes := [⟨1, st.data.fileId.getD "", "1-qism"⟩], fileId := none }
  else base

/-- The auto-post announcement of a successful `CODE` step: attempted only
when `settings?.autoPost` is truthy and a codes channel exists; its own
delivery failure is swallowed, so only the attempt is observable. -/
def autoPostEvents (stores : Stores) (movie : Movie) : List Event :=
  match stores.settings with
  | some s =>
    if s.autoPost then
      match stores.channels.find? (fun c => c.ctype == .movie_codes) with
      | some ch => [.sendPhotoTo ch.channelId movie.posterId movie.code]
      | none => []
    else []
  | none => []

structure HandlerRes where
  /-- the session stored for this chat afterwards (`none` = `state.delete`) -/
  session : Option Session
  stores : Stores
  events : List Event
deriving DecidableEq, Repr

/-- `handleAdminInput(chatId, msg)`, branch for branch.  The permission gate
precedes everything; mutations of `st` persist in the map, so the new session
is returned explicitly. -/
def handleAdminInput (superAdminId : Int) (getChat : String → Option Int)
    (chatId : Int) (msg : Msg) (st : Session) (stores : Stores) : HandlerRes :=
  let text := msg.contentText
  if (match st.permissionRequired with
      | some p => !hasPermission superAdminId stores.admins chatId p
      | none => false) then
    ⟨none, stores, [.send chatId .noPermission]⟩
  else
    match st.action with
    | .ADD_CONTENT =>
      match st.step with
      | some .VIDEO =>
        match msg.video with
        | none => ⟨some st, stores, [.send chatId .needVideo]⟩
        | some v =>
          ⟨some { st with
              data := { fileId := some v.file_id
                        quality := some (detectQuality v.width)
                        duration := some (formatDuration v.duration) }
              step := some .POSTER },
            stores, [.send chatId .askPoster]⟩
      | some .POSTER =>
        match msg.photo with
        | none => ⟨some st, stores, [.send chatId .needPhoto]⟩
        | some pl =>
          ⟨some { st with data := { st.data with posterId := pl.getLast? }, step := some .TITLE },
            stores, [.send chatId .askTitle]⟩
      | some .TITLE =>
        ⟨some { st with data := { st.data with title := some (sanitize text) }, step := some .COUNTRY },
          stores, [.send chatId .askCountry]⟩
      | some .COUNTRY =>
        ⟨some { st with data := { st.data with country := some (sanitize text) }, step := some .LANG },
          stores, [.send chatId .askLang]⟩
      | some .LANG =>
        ⟨some { st with data := { st.data with language := some (sanitize text) }, step := some .ADULT },
          stores, [.send chatId .askAdult]⟩
      | some .CODE =>
        match parseIntJS text with
        | none => ⟨some st, stores, [.send chatId .onlyNumber]⟩
        | some code =>
          if (stores.movies.find? (fun m => m.code == code)).isSome then
            ⟨some st, stores, [.send chatId .codeTaken]⟩
          else
            let movie := draftMovie st chatId code (freshMid stores.movies)
            ⟨none, { stores with movies := stores.movies ++ [movie] },
              autoPostEvents stores movie ++
                [.send chatId (.contentAdded (if st.contentType == some .series then .series else .movie) code),
                 .showAdminPanel chatId]⟩
      -- the ADULT step advances only through the `adult_yes`/`adult_no`
      -- callbacks; a plain message matches no branch and changes nothing
      | _ => ⟨some st, stores, []⟩
    | .ADD_EPISODE =>
      match st.movieId.bind (fun i => stores.movies.find? (fun m => m.mid == i)) with
      | none => ⟨none, stores, [.send chatId .seriesGone]⟩
      | some movie =>
        match st.step with
        | some .VIDEO =>
          match msg.video with
          | none => ⟨some st, stores, [.send chatId .needEpisodeVideo]⟩
          | some v =>
            ⟨some { st with tempEpisodeData := some (v.file_id, detectQuality v.width), step := some .NAME },
              stores, [.send chatId (.askEpisodeName (movie.episodes.length + 1))]⟩
        | some .NAME =>
          match st.tempEpisodeData with
          | none =>
            -- reading `.fileId` of an absent `tempEpisodeData` throws, which
            -- the surrounding catch turns into: clear session, system error
            ⟨none, stores, [.send chatId .systemError]⟩
          | some td =>
            let nextEpNum := movie.episodes.length + 1
            let epName := sanitize text
            let movie' := { movie with
              episodes := movie.episodes ++ [⟨nextEpNum, td.1, epName⟩]
              quality := some td.2 }
            ⟨none, { stores with movies := saveMovie stores.movies movie' },
              [.send chatId (.episodeAdded nextEpNum epName), .showEditMoviePanel chatId movie.mid]⟩
        | _ => ⟨some st, stores, []⟩
    | .ADD_CHANNEL =>
      match st.step with
      | some .NAME =>
        ⟨some { st with data := { name := some (sanitize text) }, step := some .URL },
          stores, [.send chatId .askChannelUrl]⟩
      | some .URL =>
        let cid? : Option String :=
          if isRawChannelId text then some text
          else (getChat (channelUsername text)).map (fun i => toString i)
        match cid? with
        | none => ⟨some st, stores, [.logError "channel-add", .send chatId .channelAddError]⟩
        | some cid =>
          let nm := st.data.name.getD ""
          ⟨none,
            { stores with channels := upsertChannel stores.channels cid nm text (st.chanType.getD .main) },
            [.send chatId (.channelAdded cid nm), .showChannelsPanel chatId]⟩
      | _ => ⟨some st, stores, []⟩
    | .EDIT_SEARCH =>
      match (parseIntJS text).bind (fun c => stores.movies.find? (fun m => m.code == c)) with
      | none => ⟨some st, stores, [.send chatId .editNotFound]⟩
      | some movie => ⟨none, stores, [.showEditMoviePanel chatId movie.mid]⟩
    | .EDIT_FIELD =>
      match st.movieId.bind (fun i => stores.movies.find? (fun m => m.mid == i)) with
      | none => ⟨none, stores, [.send chatId .movieGone]⟩
      | some movie =>
        let upd : Except Reply Movie :=
          match st.field with
          | some .title => .ok { movie with title := sanitize text }
          | some .country => .ok { movie with country := sanitize text }
          | some .posterId =>
            match msg.photo with
            | some pl => .ok { movie with posterId := pl.getLast? }
            | none => .error .needPhotoEdit
          | some .fileId =>
            if movie.contentType == .movie then
              match msg.video with
              | some v => .ok { movie with
                  fileId := some v.file_id
                  quality := some (detectQuality v.width)
                  duration := some (formatDuration v.duration) }
              | none => .error .needVideoEdit
            -- `fileId` on a series matches no branch; `movie.save()` still
            -- runs on the unmodified record
            else .ok movie
          | none => .ok movie
        match upd with
        | .error r => ⟨some st, stores, [.send chatId r]⟩
        | .ok movie' =>
          ⟨none, { stores with movies := saveMovie stores.movies movie' },
            [.send chatId .fieldEdited, .showEditMoviePanel chatId movie.mid]⟩
    | .BROADCAST =>
      ⟨some { st with msg := some msg }, stores, [.send chatId .confirmBroadcast]⟩
    | .SEARCH_USER =>
      match parseIntJS text with
      | none => ⟨some st, stores, [.send chatId .onlyNumericId]⟩
      | some tid =>
        match stores.users.find? (fun u => u.telegramId == tid) with
        | some u => ⟨none, stores, [.showUserManagePanel chatId u.telegramId]⟩
        | none => ⟨none, stores, [.send chatId .userNotFound]⟩
    | .MANAGE_ADMIN_ID =>
      match parseIntJS text with
      | none => ⟨some st, stores, [.send chatId .onlyNumericAdminId]⟩
      | some tid =>
        if tid == superAdminId then ⟨some st, stores, [.send chatId .superAdminUntouchable]⟩
        else
          match stores.admins.find? (fun a => a.telegramId == tid) with
          | some adm => ⟨none, stores, [.showAdminPermsPanel chatId adm.telegramId]⟩
          | none =>
            ⟨none, { stores with admins := stores.admins ++ [{ telegramId := tid, addedBy := chatId }] },
              [.showAdminPermsPanel chatId tid]⟩
    -- ASK_BIRTH_YEAR is handled before this function is reached and
    -- WAITING_SUB has no admin-input branch: nothing happens
    | _ => ⟨some st, stores, []⟩

/-! ## The main message handler (`bot.on('message')`) -/

/-- The process-wide mutable state: the in-memory maps plus the persisted
store. -/
structure World where
  floodMap : List (Int × Nat) := []
  sessions : SessMap := []
  adminCache : AdminCache := []
  stores : Stores := {}
deriving DecidableEq, Repr

/-- Fixed context: configuration plus the transport oracles. -/
structure Ctx where
  superAdminId : Int
  currentYear : Int
  /-- `bot.getChat(username)` → canonical id; `none` = the call threw -/
  getChat : String → Option Int
  /-- `bot.getChatMember(channelId, userId)` for the current actor -/
  member : String → Except Unit MemberStatus

/-- `User.findOneAndUpdate({telegramId}, {$setOnInsert: {...}, isActive: true},
{upsert, new, setDefaultsOnInsert})`: an existing user is re-activated, a
missing one is created with defaults. -/
def upsertUser (users : List DbUser) (chatId : Int) (msg : Msg) : DbUser × List DbUser :=
  match users.find? (fun u => u.telegramId == chatId) with
  | some u =>
    let u' := { u with isActive := true }
    (u', users.map (fun v => if v.telegramId == chatId then u' else v))
  | none =>
    let u : DbUser := { telegramId := chatId
                        firstName := sanitizeOpt msg.fromFirstName
                        username := msg.fromUsername }
    (u, users ++ [u])

/-- `handleMovieCodeRequest(chatId, codeStr, user)`: gate on subscription,
stashing the pending code in a `WAITING_SUB` session when requirements are
missing; otherwise show the movie card. -/
def handleMovieCodeRequest (ctx : Ctx) (w : World) (now : Nat) (chatId : Int)
    (codeStr : String) : World × List Event :=
  let sub := checkSubscription ctx.superAdminId w.adminCache w.stores.admins
    w.stores.channels chatId now ctx.member
  let w := { w with adminCache := sub.cache }
  if !sub.missing.isEmpty then
    let s : Session := { action := .WAITING_SUB, pendingCode := some codeStr, timestamp := now }
    ({ w with sessions := aset w.sessions chatId s },
      sub.events ++ [.sendSubRequest chatId (sub.missing.map (·.channelId))])
  else (w, sub.events ++ [.showMovieCard chatId codeStr])

/-- The `ASK_BIRTH_YEAR` session branch. -/
def birthYearFlow (ctx : Ctx) (w : World) (now : Nat) (chatId : Int)
    (st : Session) (text : String) : World × List Event :=
  match parseIntJS text with
  | none => (w, [.send chatId (.badBirthYear ctx.currentYear)])
  | some year =>
    if year < 1950 || year > ctx.currentYear then
      (w, [.send chatId (.badBirthYear ctx.currentYear)])
    else
      let users' := w.stores.users.map (fun v =>
        if v.telegramId == chatId then { v with birthYear := some year } else v)
      let pendingCode := st.pendingCode
      let w := { w with stores := { w.stores with users := users' }
                        sessions := aerase w.sessions chatId }
      if optStrTruthy pendingCode then
        let r := handleMovieCodeRequest ctx w now chatId (pendingCode.getD "")
        (r.1, [.send chatId .birthYearSaved] ++ r.2)
      else (w, [.send chatId .birthYearSaved])

/-- The handler tail after the session block: birth-year onboarding, `/start`,
`/admin`, and the bare numeric code. -/
def mainFlow (ctx : Ctx) (w : World) (now : Nat) (chatId : Int) (user : DbUser)
    (text : String) : World × List Event :=
  if !optIntTruthy user.birthYear then
    let args := if text.startsWith "/start " then (text.splitOn " ").get? 1 else none
    let s : Session := { action := .ASK_BIRTH_YEAR, pendingCode := args, timestamp := now }
    ({ w with sessions := aset w.sessions chatId s }, [.send chatId .askBirthYear])
  else if text.startsWith "/start" then
    let delEv : List Event :=
      if optNatTruthy user.lastMessageId then [.deleteMsg chatId (user.lastMessageId.getD 0)] else []
    let args := (text.splitOn " ").get? 1
    let sub := checkSubscription ctx.superAdminId w.adminCache w.stores.admins
      w.stores.channels chatId now ctx.member
    let w := { w with adminCache := sub.cache }
    if !sub.missing.isEmpty then
      let s : Session := { action := .WAITING_SUB, pendingCode := args, timestamp := now }
      let w :=
        if optStrTruthy args then { w with sessions := aset w.sessions chatId s }
        else w
      (w, delEv ++ sub.events ++ [.sendSubRequest chatId (sub.missing.map (·.channelId))])
    else if optStrTruthy args && isAllDigits (args.getD "") then
      (w, delEv ++ sub.events ++ [.showMovieCard chatId (args.getD "")])
    else
      let adm := isUserAdmin ctx.superAdminId w.adminCache w.stores.admins chatId now
      let w := { w with adminCache := adm.2 }
      if adm.1 then (w, delEv ++ sub.events ++ [.showAdminPanel chatId])
      else
        let codesChannel := w.stores.channels.find? (fun c => c.ctype == .movie_codes)
        (w, delEv ++ sub.events ++ [.send chatId (.welcome (codesChannel.map (·.url)))])
  else
    let step1 : World × Option (List Event) :=
      if text == "/admin" then
        let adm := isUserAdmin ctx.superAdminId w.adminCache w.stores.admins chatId now
        ({ w with adminCache := adm.2 },
          if adm.1 then some [.showAdminPanel chatId] else none)
      else (w, none)
    match step1 with
    | (w, some evs) => (w, evs)
    | (w, none) =>
      if isAllDigits text then handleMovieCodeRequest ctx w now chatId text
      else (w, [])

/-- `bot.on('message')`: flood gate, user upsert, ban gate, then the session
block — expiry first, then `ASK_BIRTH_YEAR`, then admin wizard input — and
finally the command tail.  (`st.timestamp || 0`: every session the code
creates carries a timestamp, so the `|| 0` default never fires and the field
is modelled as a plain `Nat`.) -/
def onMessage (ctx : Ctx) (w : World) (now : Nat) (chatId : Int) (msg : Msg) :
    World × List Event :=
  let text := msg.contentText
  let fl := isFlooding w.floodMap chatId now
  if fl.1 then (w, [])
  else
    let w := { w with floodMap := fl.2 }
    let up := upsertUser w.stores.users chatId msg
    let user := up.1
    let w := { w with stores := { w.stores with users := up.2 } }
    if user.isBanned then (w, [])
    else
      match alookup w.sessions chatId with
      | some st =>
        if now - st.timestamp > stateTTL then
          ({ w with sessions := aerase w.sessions chatId }, [.send chatId .sessionExpired])
        else if st.action == .ASK_BIRTH_YEAR then
          birthYearFlow ctx w now chatId st text
        else
          let adm := isUserAdmin ctx.superAdminId w.adminCache w.stores.admins chatId now
          let w := { w with adminCache := adm.2 }
          if adm.1 then
            let r := handleAdminInput ctx.superAdminId ctx.getChat chatId msg st w.stores
            ({ w with
                sessions := match r.session with
                  | some s => aset w.sessions chatId s
                  | none => aerase w.sessions chatId
                stores := r.stores },
              r.events)
          else mainFlow ctx w now chatId user text
      | none => mainFlow ctx w now chatId user text

/-! ## Broadcast controller (`broadcastController`, `startBroadcast`) -/

structure BC where
  isActive : Bool := false
  shouldStop : Bool := false
deriving DecidableEq, Repr

/-- Outcome of one `bot.copyMessage` call: success, or a throw whose
`e.response.statusCode` is the payload (`none` = no response object). -/
inductive SendOutcome
  | success
  | failure (statusCode : Option Nat)
deriving DecidableEq, Repr

/-- `e.response && (e.response.statusCode === 403 || e.response.statusCode === 400)`:
the "recipient unreachable" classification. -/
def isUnreachable : SendOutcome → Bool
  | .failure (some c) => c == 403 || c == 400
  | _ => false

/-- The cooperative stop flag as the loop observes it: `stopAt = some j`
means the externally-set `shouldStop` reads true from the check of iteration
`j` onwards (the flag, once set, stays set); `none` means it is never set
during the run. -/
def stopObserved (stopAt : Option Nat) (i : Nat) : Bool :=
  match stopAt with
  | some j => decide (j ≤ i)
  | none => false

structure LoopRes where
  delivered : Nat := 0
  blocked : Nat := 0
  /-- ids marked `isActive: false` by the loop -/
  unreachable : List Int := []
  /-- ids to whom a copy was attempted -/
  sent : List Int := []
  stopped : Bool := false
deriving DecidableEq, Repr

/-- The `for (let user = await cursor.next(); ...)` loop of `startBroadcast`:
check `shouldStop` before each send; success bumps `count`; a 403/400 throw
bumps `blocked` and marks the user inactive; any other throw changes nothing,
and no throw ends the loop. -/
def broadcastLoop (outcome : Nat → SendOutcome) (stopAt : Option Nat) :
    List DbUser → Nat → LoopRes
  | [], _ => {}
  | u :: rest, i =>
    if stopObserved stopAt i then { stopped := true }
    else
      let r := broadcastLoop outcome stopAt rest (i + 1)
      match outcome i with
      | .success => { r with delivered := r.delivered + 1, sent := u.telegramId :: r.sent }
      | .failure c =>
        if isUnreachable (.failure c) then
          { r with blocked := r.blocked + 1
                   unreachable := u.telegramId :: r.unreachable
                   sent := u.telegramId :: r.sent }
        else { r with sent := u.telegramId :: r.sent }

structure BroadcastRes where
  bc : BC
  delivered : Nat
  blocked : Nat
  users : List DbUser
  sent : List Int
  events : List Event
deriving DecidableEq, Repr

/-- `startBroadcast(adminId, message)`.  An already-active controller rejects
immediately, touching nothing.  Otherwise the eligible recipients
(`{isBanned: false, isActive: true}`) are streamed; a stop observation ends
the job with the counts so far (`shouldStop` is left set), natural completion
reports both counters.  The fixed 40 ms pacing delay and the deletion of the
progress message are timing/presentation and are not modelled. -/
def startBroadcast (bc : BC) (adminId : Int) (users : List DbUser)
    (outcome : Nat → SendOutcome) (stopAt : Option Nat) : BroadcastRes :=
  if bc.isActive then
    { bc := bc, delivered := 0, blocked := 0, users := users, sent := []
      events := [.send adminId .broadcastBusy] }
  else
    let recips := users.filter (fun u => !u.isBanned && u.isActive)
    let r := broadcastLoop outcome stopAt recips 0
    let users' := users.map (fun u =>
      if r.unreachable.contains u.telegramId then { u with isActive := false } else u)
    if r.stopped then
      { bc := { isActive := false, shouldStop := true }
        delivered := r.delivered, blocked := r.blocked, users := users', sent := r.sent
        events := [.send adminId .broadcastStarted, .send adminId (.broadcastStopped r.delivered)] }
    else
      { bc := { isActive := false, shouldStop := false }
        delivered := r.delivered, blocked := r.blocked, users := users', sent := r.sent
        events := [.send adminId .broadcastStarted,
                   .send adminId (.broadcastDone r.delivered r.blocked)] }

/-- The `stop_broadcast` callback: sets the flag only when a job is active,
otherwise answers "nothing to stop" and changes nothing. -/
def stopBroadcastCallback (bc : BC) : BC × List Event :=
  if bc.isActive then ({ bc with shouldStop := true }, [.answerCb .stopping])
  else (bc, [.answerCb .nothingToStop])

/-- The `confirm_broadcast` callback: only a session holding a captured
payload triggers the controller; the session is deleted first.  The returned
`Option Msg` is the payload `startBroadcast` is then invoked with. -/
def confirmBroadcastCallback (sessions : SessMap) (chatId : Int) (msgId : Nat) :
    SessMap × Option Msg × List Event :=
  match alookup sessions chatId with
  | some st =>
    match st.msg with
    | some m =>
      (aerase sessions chatId, some m,
        if msgId != 0 then [.deleteMsg chatId msgId] else [])
    | none => (sessions, none, [])
  | none => (sessions, none, [])

/-! ## Rating (`handleRating`) -/

/-- `Movie.updateOne({code, ratedUsers: {$ne: userId}}, {$push: {ratedUsers},
$inc: {ratingSum, ratingCount}})`: rewrite the first record matching both
conditions; the boolean is `modifiedCount > 0`. -/
def ratingUpdate (userId code score : Int) : List Movie → List Movie × Bool
  | [] => ([], false)
  | m :: rest =>
    if m.code == code && !(m.ratedUsers.contains userId) then
      ({ m with ratedUsers := m.ratedUsers ++ [userId]
                ratingSum := m.ratingSum + score
                ratingCount := m.ratingCount + 1 } :: rest, true)
    else
      let r := ratingUpdate userId code score rest
      (m :: r.1, r.2)

/-- `handleRating(userId, data, qId)`; `code` and `score` are the two numeric
components of the self-generated `rate_<code>_<score>` callback data. -/
def handleRating (userId code score : Int) (movies : List Movie) :
    List Movie × List Event :=
  let r := ratingUpdate userId code score movies
  if r.2 then (r.1, [.answerCb (.ratingAccepted score)])
  else (r.1, [.answerCb .alreadyVoted])

/-! ## Catch boundaries of the three handlers -/

/-- The catch of `bot.on('message')`: the error is only logged — the session
map is left as it was and the actor receives nothing. -/
def messageBoundary (w : World) (inner : Except Unit (World × List Event)) :
    World × List Event :=
  match inner with
  | .ok r => r
  | .error _ => (w, [.logError "Handler Error"])

/-- The catch inside `handleAdminInput`: log, clear the session, send the
generic system-error message. -/
def adminInputBoundary (chatId : Int) (stores : Stores)
    (inner : Except Unit HandlerRes) : HandlerRes :=
  match inner with
  | .ok r => r
  | .error _ => ⟨none, stores, [.logError "Admin Input Error", .send chatId .systemError]⟩

/-- The catch of `bot.on('callback_query')`: log and answer the query with
"Tizim xatosi!"; the session map is not touched. -/
def callbackBoundary (sessions : SessMap) (inner : Except Unit (SessMap × List Event)) :
    SessMap × List Event :=
  match inner with
  | .ok r => r
  | .error _ => (sessions, [.logError "Callback Error", .answerCb .callbackSystemError])

/-! # Helper lemmas -/

/-- The recipient loop without a stop signal: every recipient is attempted,
`delivered`/`blocked` count the successes/unreachables, and exactly the
unreachable recipients are collected for deactivation. -/
theorem broadcastLoop_none_spec (outcome : Nat → SendOutcome) :
    ∀ (recips : List DbUser) (i : Nat),
      broadcastLoop outcome none recips i =
        { delivered := ((List.enumFrom i recips).filter (fun p => outcome p.1 == .success)).length
          blocked := ((List.enumFrom i recips).filter (fun p => isUnreachable (outcome p.1))).length
          unreachable := ((List.enumFrom i recips).filter
              (fun p => isUnreachable (outcome p.1))).map (fun p => p.2.telegramId)
          sent := recips.map (fun u => u.telegramId)
          stopped := false } := by
  intro recips
  induction recips with
  | nil => intro i; rfl
  | cons u rest ih =>
    intro i
    have hstep : stopObserved none i = false := rfl
    simp only [broadcastLoop, hstep, Bool.false_eq_true, if_false, ih (i + 1), List.enumFrom,
      List.filter_cons, List.map_cons]
    rcases hout : outcome i with _ | c
    · simp [hout, isUnreachable]
    · rcases hu : isUnreachable (SendOutcome.failure c) with _ | _
      · simp [hout, hu]
      · simp [hout, hu]

/-- The recipient loop with the stop flag observed from iteration `j` on
behaves, for `i ≤ j`, like the stop-free loop over the first `j - i`
recipients, with `stopped` recording whether the cut actually happened. -/
theorem broadcastLoop_some_spec (outcome : Nat → SendOutcome) (j : Nat) :
    ∀ (recips : List DbUser) (i : Nat), i ≤ j →
      broadcastLoop outcome (some j) recips i =
        { broadcastLoop outcome none (recips.take (j - i)) i with
            stopped := decide (j - i < recips.length) } := by
  intro recips
  induction recips with
  | nil =>
    intro i hij
    simp [broadcastLoop]
  | cons u rest ih =>
    intro i hij
    rcases Nat.eq_or_lt_of_le hij with heq | hlt
    · subst heq
      simp [broadcastLoop, stopObserved, Nat.sub_self]
    · have hobs : stopObserved (some j) i = false := by
        simp [stopObserved, Nat.not_le_of_lt hlt]
      have hobs' : stopObserved none i = false := rfl
      have htake : (u :: rest).take (j - i) = u :: rest.take (j - (i + 1)) := by
        have hsub : j - i = (j - (i + 1)) + 1 := by omega
        rw [hsub]; rfl
      have hdec : decide (j - i < (u :: rest).length) = decide (j - (i + 1) < rest.length) :=
        decide_eq_decide.mpr (by simp only [List.length_cons]; omega)
      simp only [broadcastLoop, hobs, hobs', Bool.false_eq_true, if_false, ih (i + 1) hlt,
        htake, hdec]
      rcases hout : outcome i with _ | c
      · rfl
      · by_cases hu : isUnreachable (SendOutcome.failure c) = true
        · simp [hu]
        · simp [hu]

/-- `User.find({isBanned: false, isActive: true})`: the recipients of a
broadcast. -/
def eligible (users : List DbUser) : List DbUser :=
  users.filter (fun u => !u.isBanned && u.isActive)

/-- Number of successful relays over an indexed recipient list. -/
def successCount (outcome : Nat → SendOutcome) (recips : List DbUser) : Nat :=
  ((List.enumFrom 0 recips).filter (fun p => outcome p.1 == .success)).length

/-- Number of "recipient unreachable" failures over an indexed recipient list. -/
def unreachCount (outcome : Nat → SendOutcome) (recips : List DbUser) : Nat :=
  ((List.enumFrom 0 recips).filter (fun p => isUnreachable (outcome p.1))).length

/-- Ids of the recipients whose relay failed as "recipient unreachable". -/
def unreachIds (outcome : Nat → SendOutcome) (recips : List DbUser) : List Int :=
  ((List.enumFrom 0 recips).filter (fun p => isUnreachable (outcome p.1))).map
    (fun p => p.2.telegramId)

/-! # Claim theorems -/

/-- C1: invoking `startBroadcast` while the controller's `isActive` flag is
true sends the "broadcast already running" rejection to the initiator and
returns without touching the controller flags, the counters, the recipient
store, or any recipient. -/
theorem broadcast_start_rejected_while_active (bc : BC) (adminId : Int)
    (users : List DbUser) (outcome : Nat → SendOutcome) (stopAt : Option Nat)
    (h : bc.isActive = true) :
    startBroadcast bc adminId users outcome stopAt =
      { bc := bc, delivered := 0, blocked := 0, users := users, sent := []
        events := [.send adminId .broadcastBusy] } := by
  simp [startBroadcast, h]

theorem broadcast_start_rejected_while_active_witness :
    startBroadcast ⟨true, false⟩ 1 [{ telegramId := 7 }] (fun _ => .success) none =
      { bc := ⟨true, false⟩, delivered := 0, blocked := 0, users := [{ telegramId := 7 }]
        sent := [], events := [.send 1 .broadcastBusy] } :=
  broadcast_start_rejected_while_active ⟨true, false⟩ 1 [{ telegramId := 7 }]
    (fun _ => .success) none rfl

/-- C3: the generic flood check returns `true` without updating the stored
timestamp when the elapsed time is strictly below the window, and otherwise
records the current time and returns `false`; hence of two inputs inside one
window only the first is accepted, the second being dropped with no reply
(the `bot.on('message')` handler returns immediately on a `true` check). -/
theorem flood_gate_spec :
    (∀ (m : List (Int × Nat)) (uid : Int) (now : Nat),
        now - ((alookup m uid).getD 0) < floodLimit →
        isFlooding m uid now = (true, m)) ∧
    (∀ (m : List (Int × Nat)) (uid : Int) (now : Nat),
        ¬ now - ((alookup m uid).getD 0) < floodLimit →
        isFlooding m uid now = (false, aset m uid now)) ∧
    (∀ (m m1 : List (Int × Nat)) (uid : Int) (t1 t2 : Nat),
        isFlooding m uid t1 = (false, m1) →
        t2 - t1 < floodLimit →
        isFlooding m1 uid t2 = (true, m1)) ∧
    (∀ (ctx : Ctx) (w : World) (uid : Int) (now : Nat) (msg : Msg),
        (isFlooding w.floodMap uid now).1 = true →
        onMessage ctx w now uid msg = (w, [])) := by
  refine ⟨?_, ?_, ?_, ?_⟩
  · intro m uid now h
    simp [isFlooding, h]
  · intro m uid now h
    simp [isFlooding, h]
  · intro m m1 uid t1 t2 h1 h2
    have hcond : ¬ t1 - ((alookup m uid).getD 0) < floodLimit := by
      intro hc
      simp [isFlooding, hc] at h1
    have hm1 : m1 = aset m uid t1 := by
      simpa [isFlooding, hcond] using h1.symm
    subst hm1
    simp [isFlooding, alookup_aset_self, h2]
  · intro ctx w uid now msg h
    simp [onMessage, h]

theorem flood_gate_spec_witness :
    isFlooding [] 7 1000 = (false, aset [] 7 1000) ∧
    isFlooding (aset [] 7 1000) 7 1500 = (true, aset [] 7 1000) :=
  ⟨flood_gate_spec.2.1 [] 7 1000 (by decide),
   flood_gate_spec.2.2.1 [] (aset [] 7 1000) 7 1000 1500
     (flood_gate_spec.2.1 [] 7 1000 (by decide)) (by decide)⟩

/-- C4: a broadcast that runs to completion delivers to every eligible
recipient in turn: successes are counted in `delivered`, "recipient
unreachable" failures (status 403/400) are counted in `blocked` and exactly
those recipients are marked inactive in the store, and any other failure
changes nothing and never ends the loop. -/
theorem broadcast_per_recipient_spec (bc : BC) (adminId : Int) (users : List DbUser)
    (outcome : Nat → SendOutcome) (h : bc.isActive = false) :
    startBroadcast bc adminId users outcome none =
      { bc := { isActive := false, shouldStop := false }
        delivered := successCount outcome (eligible users)
        blocked := unreachCount outcome (eligible users)
        users := users.map (fun u =>
          if (unreachIds outcome (eligible users)).contains u.telegramId
          then { u with isActive := false } else u)
        sent := (eligible users).map (fun u => u.telegramId)
        events := [.send adminId .broadcastStarted,
          .send adminId (.broadcastDone (successCount outcome (eligible users))
            (unreachCount outcome (eligible users)))] } := by
  simp only [startBroadcast, h, Bool.false_eq_true, if_false,
    broadcastLoop_none_spec]
  rfl

/-- C4 witness: five eligible users, relays 1 and 3 unreachable — the run
ends with `delivered = 3`, `blocked = 2`, and exactly users 12 and 14 marked
inactive. -/
theorem broadcast_per_recipient_spec_witness :
    (startBroadcast ⟨false, false⟩ 1
        [{ telegramId := 11 }, { telegramId := 12 }, { telegramId := 13 },
         { telegramId := 14 }, { telegramId := 15 }]
        (fun i => if i == 1 then .failure (some 403)
                  else if i == 3 then .failure (some 400) else .success) none).delivered = 3 ∧
    (startBroadcast ⟨false, false⟩ 1
        [{ telegramId := 11 }, { telegramId := 12 }, { telegramId := 13 },
         { telegramId := 14 }, { telegramId := 15 }]
        (fun i => if i == 1 then .failure (some 403)
                  else if i == 3 then .failure (some 400) else .success) none).blocked = 2 ∧
    (startBroadcast ⟨false, false⟩ 1
        [{ telegramId := 11 }, { telegramId := 12 }, { telegramId := 13 },
         { telegramId := 14 }, { telegramId := 15 }]
        (fun i => if i == 1 then .failure (some 403)
                  else if i == 3 then .failure (some 400) else .success) none).users =
      [{ telegramId := 11 }, { telegramId := 12, isActive := false }, { telegramId := 13 },
       { telegramId := 14, isActive := false }, { telegramId := 15 }] := by
  rw [broadcast_per_recipient_spec ⟨false, false⟩ 1
    [{ telegramId := 11 }, { telegramId := 12 }, { telegramId := 13 },
     { telegramId := 14 }, { telegramId := 15 }]
    (fun i => if i == 1 then .failure (some 403)
              else if i == 3 then .failure (some 400) else .success) rfl]
  refine ⟨by decide, by decide, by decide⟩

/-- C5: the loop checks the cancellation flag before every send — once the
flag is observed at position `j`, only the first `j` recipients have been
relayed to, the job reports the delivered count accumulated so far and clears
its active flag; and `stop_broadcast` sets the flag only when a job is
active, answering "nothing to stop" (and changing nothing) otherwise. -/
theorem broadcast_stop_spec :
    (∀ (bc : BC) (adminId : Int) (users : List DbUser) (outcome : Nat → SendOutcome) (j : Nat),
      bc.isActive = false → j < (eligible users).length →
      startBroadcast bc adminId users outcome (some j) =
        { bc := { isActive := false, shouldStop := true }
          delivered := successCount outcome ((eligible users).take j)
          blocked := unreachCount outcome ((eligible users).take j)
          users := users.map (fun u =>
            if (unreachIds outcome ((eligible users).take j)).contains u.telegramId
            then { u with isActive := false } else u)
          sent := ((eligible users).take j).map (fun u => u.telegramId)
          events := [.send adminId .broadcastStarted,
            .send adminId (.broadcastStopped (successCount outcome ((eligible users).take j)))] }) ∧
    (∀ bc : BC, bc.isActive = true →
      stopBroadcastCallback bc = ({ bc with shouldStop := true }, [.answerCb .stopping])) ∧
    (∀ bc : BC, bc.isActive = false →
      stopBroadcastCallback bc = (bc, [.answerCb .nothingToStop])) := by
  refine ⟨?_, ?_, ?_⟩
  · intro bc adminId users outcome j h hj
    have h1 := broadcastLoop_some_spec outcome j (eligible users) 0 (Nat.zero_le j)
    simp only [Nat.sub_zero] at h1
    simp only [startBroadcast, h, Bool.false_eq_true, if_false]
    rw [show users.filter (fun u => !u.isBanned && u.isActive) = eligible users from rfl, h1,
      broadcastLoop_none_spec]
    simp [hj, successCount, unreachCount, unreachIds]
  · intro bc h
    simp [stopBroadcastCallback, h]
  · intro bc h
    simp [stopBroadcastCallback, h]

theorem broadcast_stop_spec_witness :
    (startBroadcast ⟨false, false⟩ 1
        [{ telegramId := 21 }, { telegramId := 22 }, { telegramId := 23 }]
        (fun _ => .success) (some 1)).sent = [21] ∧
    (startBroadcast ⟨false, false⟩ 1
        [{ telegramId := 21 }, { telegramId := 22 }, { telegramId := 23 }]
        (fun _ => .success) (some 1)).delivered = 1 ∧
    (startBroadcast ⟨false, false⟩ 1
        [{ telegramId := 21 }, { telegramId := 22 }, { telegramId := 23 }]
        (fun _ => .success) (some 1)).bc.isActive = false ∧
    stopBroadcastCallback ⟨true, false⟩ = (⟨true, true⟩, [.answerCb .stopping]) ∧
    stopBroadcastCallback ⟨false, false⟩ = (⟨false, false⟩, [.answerCb .nothingToStop]) := by
  have h1 := broadcast_stop_spec.1 ⟨false, false⟩ 1
    [{ telegramId := 21 }, { telegramId := 22 }, { telegramId := 23 }]
    (fun _ => .success) 1 rfl (by decide)
  rw [h1]
  exact ⟨by decide, by decide, by decide,
    broadcast_stop_spec.2.1 ⟨true, false⟩ rfl, broadcast_stop_spec.2.2 ⟨false, false⟩ rfl⟩

/-- Whether `getChatMember` reports this channel as not joined
(`left`/`kicked`); a transport error counts as joined. -/
def chMissing (member : String → Except Unit MemberStatus) (ch : Channel) : Bool :=
  match member ch.channelId with
  | .ok s => s == .left || s == .kicked
  | .error _ => false

/-- Whether `getChatMember` threw for this channel. -/
def chErr (member : String → Except Unit MemberStatus) (ch : Channel) : Bool :=
  match member ch.channelId with
  | .ok _ => false
  | .error _ => true

theorem subFold_spec (member : String → Except Unit MemberStatus) :
    ∀ (channels : List Channel) (acc : List Channel × List String × List Event),
      channels.foldl (subStep member) acc =
        (acc.1 ++ channels.filter (chMissing member),
         acc.2.1 ++ channels.map (fun c => c.channelId),
         acc.2.2 ++ (channels.filter (chErr member)).map (fun c => Event.logError c.channelId)) := by
  intro channels
  induction channels with
  | nil => intro acc; simp
  | cons ch rest ih =>
    intro acc
    rw [List.foldl_cons, ih]
    cases hm : member ch.channelId with
    | ok s =>
      by_cases hlk : (s == MemberStatus.left || s == MemberStatus.kicked) = true
      · simp [subStep, hm, chMissing, chErr, hlk, List.filter_cons]
      · simp [subStep, hm, chMissing, chErr, hlk, List.filter_cons]
    | error e =>
      simp [subStep, hm, chMissing, chErr, List.filter_cons]

/-- C9: `checkSubscription` for an admin answers the empty list with no
membership query at all; for a non-admin every configured channel is queried
regardless of transport errors, a channel whose query throws being excluded
from the missing list (only logged) and the remaining channels still
checked — the missing list is exactly the channels reported `left`/`kicked`. -/
theorem subscription_gate_spec (superAdminId : Int) (cache : AdminCache)
    (admins : List AdminRec) (channels : List Channel) (uid : Int) (now : Nat)
    (member : String → Except Unit MemberStatus) :
    ((isUserAdmin superAdminId cache admins uid now).1 = true →
      checkSubscription superAdminId cache admins channels uid now member =
        ⟨[], (isUserAdmin superAdminId cache admins uid now).2, [], []⟩) ∧
    ((isUserAdmin superAdminId cache admins uid now).1 = false →
      checkSubscription superAdminId cache admins channels uid now member =
        ⟨channels.filter (chMissing member),
         (isUserAdmin superAdminId cache admins uid now).2,
         channels.map (fun c => c.channelId),
         (channels.filter (chErr member)).map (fun c => Event.logError c.channelId)⟩) := by
  constructor
  · intro h
    simp [checkSubscription, h]
  · intro h
    by_cases hc : channels.isEmpty = true
    · have he : channels = [] := by
        cases channels with
        | nil => rfl
        | cons a l => simp [List.isEmpty] at hc
      subst he
      simp [checkSubscription, h]
    · simp [checkSubscription, h, hc, subFold_spec]

/-- C9 witness: an admin gets an empty answer with zero queries; a plain user
with three channels — one erroring, one `left`, one joined — gets exactly the
`left` channel as missing while all three were queried and the error logged. -/
theorem subscription_gate_spec_witness :
    checkSubscription 1 [] [] [⟨"a", "A", "", .main⟩] 1 0
        (fun _ => Except.error ()) = ⟨[], [], [], []⟩ ∧
    checkSubscription 1 [] [] [⟨"a", "A", "", .main⟩, ⟨"b", "B", "", .main⟩, ⟨"c", "C", "", .main⟩] 2 0
        (fun cid => if cid == "a" then Except.error ()
                    else if cid == "b" then Except.ok .left else Except.ok .member) =
      ⟨[⟨"b", "B", "", .main⟩], aset [] 2 ⟨false, adminCacheTTL⟩, ["a", "b", "c"],
        [.logError "a"]⟩ := by
  constructor
  · exact (subscription_gate_spec 1 [] [] [⟨"a", "A", "", .main⟩] 1 0
      (fun _ => Except.error ())).1 (by decide)
  · have h := (subscription_gate_spec 1 [] []
      [⟨"a", "A", "", .main⟩, ⟨"b", "B", "", .main⟩, ⟨"c", "C", "", .main⟩] 2 0
      (fun cid => if cid == "a" then Except.error ()
                  else if cid == "b" then Except.ok .left else Except.ok .member)).2 (by decide)
    rw [h]
    decide

/-- The Bool match condition of `Movie.updateOne({code, ratedUsers: {$ne: userId}})`. -/
theorem ratingMatch_eq_true {m : Movie} {userId code : Int}
    (hc : m.code = code) (hr : userId ∉ m.ratedUsers) :
    (m.code == code && !(m.ratedUsers.contains userId)) = true := by
  simp [hc, hr]

theorem ratingMatch_eq_false {m : Movie} {userId code : Int}
    (h : ¬(m.code = code ∧ userId ∉ m.ratedUsers)) :
    (m.code == code && !(m.ratedUsers.contains userId)) = false := by
  rcases Bool.eq_false_or_eq_true (m.code == code && !(m.ratedUsers.contains userId)) with ht | hf
  · exfalso
    apply h
    simp only [Bool.and_eq_true, beq_iff_eq, Bool.not_eq_true'] at ht
    refine ⟨ht.1, fun hmem => ?_⟩
    have := ht.2
    simp [hmem] at this
  · exact hf

theorem ratingUpdate_nomatch (userId code score : Int) :
    ∀ movies : List Movie,
      (∀ m ∈ movies, ¬(m.code = code ∧ userId ∉ m.ratedUsers)) →
      ratingUpdate userId code score movies = (movies, false) := by
  intro movies
  induction movies with
  | nil => intro _; rfl
  | cons m rest ih =>
    intro h
    have hcond := ratingMatch_eq_false (h m (List.mem_cons_self m rest))
    have hrest := ih (fun m' hm' => h m' (List.mem_cons_of_mem m hm'))
    simp only [ratingUpdate, hcond, Bool.false_eq_true, if_false, hrest]

theorem ratingUpdate_first_match (userId code score : Int) :
    ∀ (pre : List Movie) (m : Movie) (post : List Movie),
      (∀ m' ∈ pre, ¬(m'.code = code ∧ userId ∉ m'.ratedUsers)) →
      m.code = code → userId ∉ m.ratedUsers →
      ratingUpdate userId code score (pre ++ m :: post) =
        (pre ++ { m with ratedUsers := m.ratedUsers ++ [userId]
                         ratingSum := m.ratingSum + score
                         ratingCount := m.ratingCount + 1 } :: post, true) := by
  intro pre
  induction pre with
  | nil =>
    intro m post hpre hc hr
    have ht := ratingMatch_eq_true hc hr
    simp only [List.nil_append, ratingUpdate, ht, if_true]
  | cons p rest ih =>
    intro m post hpre hc hr
    have hcond := ratingMatch_eq_false (hpre p (List.mem_cons_self p rest))
    have hrec := ih m post (fun m' h' => hpre m' (List.mem_cons_of_mem p h')) hc hr
    simp only [List.cons_append, ratingUpdate, hcond, Bool.false_eq_true, if_false,
      List.append_eq, hrec]

/-- C10: rating is once-per-user — the update touches a record only when the
rater is not yet in its `ratedUsers`, appending the rater and bumping
`ratingSum`/`ratingCount`; when every record with the code already lists the
rater, nothing changes and the already-voted alert is answered. -/
theorem rating_once_spec (userId code score : Int) :
    (∀ movies : List Movie,
        (∀ m ∈ movies, m.code = code → userId ∈ m.ratedUsers) →
        handleRating userId code score movies = (movies, [.answerCb .alreadyVoted])) ∧
    (∀ (pre : List Movie) (m : Movie) (post : List Movie),
        (∀ m' ∈ pre, ¬(m'.code = code ∧ userId ∉ m'.ratedUsers)) →
        m.code = code → userId ∉ m.ratedUsers →
        handleRating userId code score (pre ++ m :: post) =
          (pre ++ { m with ratedUsers := m.ratedUsers ++ [userId]
                           ratingSum := m.ratingSum + score
                           ratingCount := m.ratingCount + 1 } :: post,
            [.answerCb (.ratingAccepted score)])) := by
  constructor
  · intro movies h
    have hn := ratingUpdate_nomatch userId code score movies
      (fun m hm hand => hand.2 (h m hm hand.1))
    simp [handleRating, hn]
  · intro pre m post hpre hc hr
    have hm := ratingUpdate_first_match userId code score pre m post hpre hc hr
    simp [handleRating, hm]

/-- C10 witness: a fresh vote on code 5 appends user 9 and bumps the sums; a
repeat vote by user 9 changes nothing and answers "already voted". -/
theorem rating_once_spec_witness :
    handleRating 9 5 4 [{ mid := 1, code := 5, ratedUsers := [9], ratingSum := 4, ratingCount := 1 }] =
      ([{ mid := 1, code := 5, ratedUsers := [9], ratingSum := 4, ratingCount := 1 }],
        [.answerCb .alreadyVoted]) ∧
    handleRating 9 5 4 [{ mid := 1, code := 5 }] =
      ([{ mid := 1, code := 5, ratedUsers := [9], ratingSum := 4, ratingCount := 1 }],
        [.answerCb (.ratingAccepted 4)]) := by
  constructor
  · exact (rating_once_spec 9 5 4).1
      [{ mid := 1, code := 5, ratedUsers := [9], ratingSum := 4, ratingCount := 1 }]
      (by intro m hm hc; simp at hm; simp [hm])
  · have h := (rating_once_spec 9 5 4).2 [] { mid := 1, code := 5 } []
      (by intro m' hm'; simp at hm') rfl (by simp)
    simpa using h

/-- C8 counterexample: an internal failure during callback handling is caught
and answered with the generic "Tizim xatosi!" alert, but the actor's session
is NOT cleared — the stored session survives the failure, contradicting the
claim that the session is cleared defensively at every handler boundary. -/
theorem callback_failure_keeps_session :
    callbackBoundary [(1, { action := .BROADCAST, timestamp := 5 })] (.error ()) =
      ([(1, { action := .BROADCAST, timestamp := 5 })],
        [.logError "Callback Error", .answerCb .callbackSystemError]) ∧
    alookup (callbackBoundary [(1, { action := .BROADCAST, timestamp := 5 })] (.error ())).1 1 =
      some { action := .BROADCAST, timestamp := 5 } :=
  ⟨rfl, rfl⟩

/-- C8 amended: every internal failure is caught, so each handler boundary
returns normally.  A failure inside `handleAdminInput` clears the session
and sends the generic system-error message; a failure in callback handling
is answered with a generic error alert but leaves the session map untouched;
a failure in the top-level message handler is only logged, with no message to
the actor and no session change. -/
theorem failure_boundaries_spec :
    (∀ (chatId : Int) (stores : Stores),
      adminInputBoundary chatId stores (.error ()) =
        ⟨none, stores, [.logError "Admin Input Error", .send chatId .systemError]⟩) ∧
    (∀ sessions : SessMap,
      callbackBoundary sessions (.error ()) =
        (sessions, [.logError "Callback Error", .answerCb .callbackSystemError])) ∧
    (∀ w : World,
      messageBoundary w (.error ()) = (w, [.logError "Handler Error"])) ∧
    (∀ (chatId : Int) (stores : Stores) (r : HandlerRes),
      adminInputBoundary chatId stores (.ok r) = r) ∧
    (∀ (sessions : SessMap) (r : SessMap × List Event),
      callbackBoundary sessions (.ok r) = r) :=
  ⟨fun _ _ => rfl, fun _ => rfl, fun _ => rfl, fun _ _ _ => rfl, fun _ _ => rfl⟩

/-- Context for the concrete session-expiry scenarios. -/
def c2ctx : Ctx :=
  { superAdminId := 1, currentYear := 2024, getChat := fun _ => none
    member := fun _ => .error () }

/-- A stale admin-wizard session (created at time 0). -/
def c2sess : Session :=
  { action := .ADD_CONTENT, step := some .CODE, permissionRequired := some .movies
    timestamp := 0 }

def c2world : World := { floodMap := [(5, 10000000)], sessions := [(5, c2sess)] }

def c2msg : Msg := { text := some "7" }

/-- C2 counterexample: a message arriving inside the generic flood window
from an actor whose stored session is long expired is dropped by the flood
gate before the expiry check ever runs — the session is not deleted and no
expiry notice is sent, though the claim requires both for every inbound
message from such an actor. -/
theorem expired_session_flood_drop :
    (isFlooding c2world.floodMap 5 10000100).1 = true ∧
    10000100 - c2sess.timestamp > stateTTL ∧
    alookup c2world.sessions 5 = some c2sess ∧
    onMessage c2ctx c2world 10000100 5 c2msg = (c2world, []) ∧
    alookup (onMessage c2ctx c2world 10000100 5 c2msg).1.sessions 5 = some c2sess := by
  refine ⟨rfl, by decide, rfl, rfl, rfl⟩

/-- C2 amended: for every inbound message that passes the generic flood gate
and whose (upserted) sender is not banned, a stored session older than the
TTL is deleted and the expiry notice sent before any step-specific logic
runs — the resulting state differs from the incoming one only by the flood
stamp, the user upsert, and the removed session, and the only event is the
notice; afterwards the session is absent. -/
theorem session_expiry_spec (ctx : Ctx) (w : World) (now : Nat) (chatId : Int)
    (msg : Msg) (st : Session)
    (hflood : (isFlooding w.floodMap chatId now).1 = false)
    (hban : (upsertUser w.stores.users chatId msg).1.isBanned = false)
    (hsess : alookup w.sessions chatId = some st)
    (hexp : now - st.timestamp > stateTTL) :
    onMessage ctx w now chatId msg =
      ({ w with floodMap := (isFlooding w.floodMap chatId now).2
                sessions := aerase w.sessions chatId
                stores := { w.stores with users := (upsertUser w.stores.users chatId msg).2 } },
        [.send chatId .sessionExpired]) ∧
    alookup (onMessage ctx w now chatId msg).1.sessions chatId = none := by
  have h1 : onMessage ctx w now chatId msg =
      ({ w with floodMap := (isFlooding w.floodMap chatId now).2
                sessions := aerase w.sessions chatId
                stores := { w.stores with users := (upsertUser w.stores.users chatId msg).2 } },
        [.send chatId .sessionExpired]) := by
    simp only [onMessage, hflood, Bool.false_eq_true, if_false, hban, hsess, hexp, if_true]
  refine ⟨h1, ?_⟩
  rw [h1]
  exact alookup_aerase_self w.sessions chatId

/-- C2 amended witness: the same stale session, with a quiet flood map and an
unbanned sender, is removed and the notice sent. -/
theorem session_expiry_spec_witness :
    onMessage c2ctx { sessions := [(5, c2sess)] } 10000100 5 c2msg =
      ({ ({ sessions := [(5, c2sess)] } : World) with
          floodMap := (isFlooding ([] : List (Int × Nat)) 5 10000100).2
          sessions := aerase [(5, c2sess)] 5
          stores := { ({} : Stores) with users := (upsertUser [] 5 c2msg).2 } },
        [.send 5 .sessionExpired]) ∧
    alookup (onMessage c2ctx { sessions := [(5, c2sess)] } 10000100 5 c2msg).1.sessions 5 = none :=
  session_expiry_spec c2ctx { sessions := [(5, c2sess)] } 10000100 5 c2msg c2sess
    rfl rfl rfl (by decide)

/-- The session the `adult_yes`/`adult_no` callback leaves at the final
`CODE` step of `ADD_CONTENT`. -/
def codeStepSession (d : Draft) (ct : CType) (ts : Nat) : Session :=
  { action := .ADD_CONTENT, step := some .CODE, data := d, contentType := some ct
    permissionRequired := some .movies, timestamp := ts }

theorem draftMovie_code (st : Session) (chatId code : Int) (mid : Nat) :
    (draftMovie st chatId code mid).code = code := by
  by_cases h : (st.contentType == some CType.series) = true <;> simp [draftMovie, h]

theorem code_step_nan_aux (superAdminId : Int) (getChat : String → Option Int)
    (chatId : Int) (msg : Msg) (d : Draft) (ct : CType) (ts : Nat) (stores : Stores)
    (hperm : hasPermission superAdminId stores.admins chatId Perm.movies = true)
    (hp : parseIntJS msg.contentText = none) :
    handleAdminInput superAdminId getChat chatId msg (codeStepSession d ct ts) stores =
      ⟨some (codeStepSession d ct ts), stores, [.send chatId .onlyNumber]⟩ := by
  simp [handleAdminInput, codeStepSession, hperm, hp]

theorem code_step_taken_aux (superAdminId : Int) (getChat : String → Option Int)
    (chatId : Int) (msg : Msg) (d : Draft) (ct : CType) (ts : Nat) (stores : Stores)
    (hperm : hasPermission superAdminId stores.admins chatId Perm.movies = true)
    (code : Int) (hp : parseIntJS msg.contentText = some code)
    (hdup : (stores.movies.find? (fun m => m.code == code)).isSome = true) :
    handleAdminInput superAdminId getChat chatId msg (codeStepSession d ct ts) stores =
      ⟨some (codeStepSession d ct ts), stores, [.send chatId .codeTaken]⟩ := by
  simp [handleAdminInput, codeStepSession, hperm, hp, hdup]

theorem code_step_create_aux (superAdminId : Int) (getChat : String → Option Int)
    (chatId : Int) (msg : Msg) (d : Draft) (ct : CType) (ts : Nat) (stores : Stores)
    (hperm : hasPermission superAdminId stores.admins chatId Perm.movies = true)
    (code : Int) (hp : parseIntJS msg.contentText = some code)
    (hdup : (stores.movies.find? (fun m => m.code == code)).isSome = false) :
    handleAdminInput superAdminId getChat chatId msg (codeStepSession d ct ts) stores =
      ⟨none,
        { stores with movies := stores.movies ++
            [draftMovie (codeStepSession d ct ts) chatId code (freshMid stores.movies)] },
        autoPostEvents stores
            (draftMovie (codeStepSession d ct ts) chatId code (freshMid stores.movies)) ++
          [.send chatId (.contentAdded (if some ct == some CType.series then .series else .movie) code),
           .showAdminPanel chatId]⟩ := by
  simp [handleAdminInput, codeStepSession, hperm, hp, hdup]

/-- C6 counterexample: at the `CODE` step the input "42abc" — which is not a
numeral — is accepted under `parseInt` semantics and creates the record with
code 42; the step therefore does not accept *only* numeric input. -/
theorem code_step_accepts_nonnumeric :
    isAllDigits "42abc" = false ∧
    parseIntJS "42abc" = some 42 ∧
    (handleAdminInput 1 (fun _ => none) 1 { text := some "42abc" }
        (codeStepSession {} .movie 3) {}).stores.movies.map (fun m => m.code) = [42] ∧
    (handleAdminInput 1 (fun _ => none) 1 { text := some "42abc" }
        (codeStepSession {} .movie 3) {}).session = none := by
  refine ⟨by decide, by decide, by decide, by decide⟩

/-- C6 amended: at the final `CODE` step, input whose `parseInt` result is
`NaN` is re-prompted ("only numbers") with no state change; a parsed code
already present in the store is re-prompted ("code taken"), the step not
advancing and no record created; otherwise exactly one record carrying the
parsed code is appended and the wizard ends — so a second submission of the
same code is rejected and creates no second record.  The numeric validation
is `parseInt`-based: any input with a leading integer is accepted (see the
counterexample), not only all-digit input. -/
theorem code_step_spec (superAdminId : Int) (getChat : String → Option Int)
    (chatId : Int) (msg : Msg) (d : Draft) (ct : CType) (ts : Nat) (stores : Stores)
    (hperm : hasPermission superAdminId stores.admins chatId Perm.movies = true) :
    (parseIntJS msg.contentText = none →
      handleAdminInput superAdminId getChat chatId msg (codeStepSession d ct ts) stores =
        ⟨some (codeStepSession d ct ts), stores, [.send chatId .onlyNumber]⟩) ∧
    (∀ code : Int, parseIntJS msg.contentText = some code →
      (stores.movies.find? (fun m => m.code == code)).isSome = true →
      handleAdminInput superAdminId getChat chatId msg (codeStepSession d ct ts) stores =
        ⟨some (codeStepSession d ct ts), stores, [.send chatId .codeTaken]⟩) ∧
    (∀ code : Int, parseIntJS msg.contentText = some code →
      (stores.movies.find? (fun m => m.code == code)).isSome = false →
      (handleAdminInput superAdminId getChat chatId msg (codeStepSession d ct ts) stores).stores.movies =
          stores.movies ++
            [draftMovie (codeStepSession d ct ts) chatId code (freshMid stores.movies)] ∧
      (draftMovie (codeStepSession d ct ts) chatId code (freshMid stores.movies)).code = code ∧
      (handleAdminInput superAdminId getChat chatId msg (codeStepSession d ct ts) stores).session = none) ∧
    (∀ code : Int, parseIntJS msg.contentText = some code →
      (stores.movies.find? (fun m => m.code == code)).isSome = false →
      ∀ (msg2 : Msg) (d2 : Draft) (ct2 : CType) (ts2 : Nat),
        parseIntJS msg2.contentText = some code →
        handleAdminInput superAdminId getChat chatId msg2 (codeStepSession d2 ct2 ts2)
            ((handleAdminInput superAdminId getChat chatId msg (codeStepSession d ct ts) stores).stores) =
          ⟨some (codeStepSession d2 ct2 ts2),
            (handleAdminInput superAdminId getChat chatId msg (codeStepSession d ct ts) stores).stores,
            [.send chatId .codeTaken]⟩) := by
  refine ⟨?_, ?_, ?_, ?_⟩
  · intro hp
    exact code_step_nan_aux superAdminId getChat chatId msg d ct ts stores hperm hp
  · intro code hp hdup
    exact code_step_taken_aux superAdminId getChat chatId msg d ct ts stores hperm code hp hdup
  · intro code hp hdup
    rw [code_step_create_aux superAdminId getChat chatId msg d ct ts stores hperm code hp hdup]
    exact ⟨rfl, draftMovie_code _ chatId code _, rfl⟩
  · intro code hp hdup msg2 d2 ct2 ts2 hp2
    rw [code_step_create_aux superAdminId getChat chatId msg d ct ts stores hperm code hp hdup]
    apply code_step_taken_aux
    · simpa using hperm
    · exact hp2
    · rw [List.find?_isSome]
      refine ⟨draftMovie (codeStepSession d ct ts) chatId code (freshMid stores.movies),
        by simp, ?_⟩
      simp [draftMovie_code]

/-- C6 amended witness: `abc` is rejected; `4242` on an empty store creates
the one record; re-submitting `4242` afterwards is rejected with "code
taken" and creates nothing. -/
theorem code_step_spec_witness :
    handleAdminInput 1 (fun _ => none) 1 { text := some "abc" }
        (codeStepSession {} .movie 3) {} =
      ⟨some (codeStepSession {} .movie 3), {}, [.send 1 .onlyNumber]⟩ ∧
    (handleAdminInput 1 (fun _ => none) 1 { text := some "4242" }
        (codeStepSession {} .movie 3) {}).stores.movies =
      [] ++ [draftMovie (codeStepSession {} .movie 3) 1 4242 (freshMid [])] ∧
    handleAdminInput 1 (fun _ => none) 1 { text := some "4242" }
        (codeStepSession {} .movie 4)
        ((handleAdminInput 1 (fun _ => none) 1 { text := some "4242" }
          (codeStepSession {} .movie 3) {}).stores) =
      ⟨some (codeStepSession {} .movie 4),
        (handleAdminInput 1 (fun _ => none) 1 { text := some "4242" }
          (codeStepSession {} .movie 3) {}).stores,
        [.send 1 .codeTaken]⟩ := by
  refine ⟨?_, ?_, ?_⟩
  · exact (code_step_spec 1 (fun _ => none) 1 { text := some "abc" } {} .movie 3 {} rfl).1
      (by decide)
  · exact ((code_step_spec 1 (fun _ => none) 1 { text := some "4242" } {} .movie 3 {} rfl).2.2.1
      4242 (by decide) rfl).1
  · exact (code_step_spec 1 (fun _ => none) 1 { text := some "4242" } {} .movie 3 {} rfl).2.2.2
      4242 (by decide) rfl { text := some "4242" } {} .movie 4 (by decide)

/-- An `ADD_CONTENT` session at an arbitrary step, as the callbacks and the
earlier steps build it. -/
def addContentSession (stp : SStep) (d : Draft) (ct : CType) (ts : Nat) : Session :=
  { action := .ADD_CONTENT, step := some stp, data := d, contentType := some ct
    permissionRequired := some .movies, timestamp := ts }

/-- An `ADD_EPISODE` session as the `add_ep_` callback builds it. -/
def addEpisodeSession (stp : SStep) (mid ts : Nat) : Session :=
  { action := .ADD_EPISODE, step := some stp, movieId := some mid
    permissionRequired := some .movies, timestamp := ts }

/-- An `EDIT_FIELD` session as the `ed_f_` callback builds it. -/
def editFieldSession (f : EField) (mid ts : Nat) : Session :=
  { action := .EDIT_FIELD, field := some f, movieId := some mid
    permissionRequired := some .movies, timestamp := ts }

/-- C7 counterexample: the `TITLE` step of `AddContent` expects text, yet a
photo-only message (no text, no caption) advances the wizard to `COUNTRY`
and writes the empty string into the draft title — a mismatched input kind
neither re-prompts nor leaves the state unchanged. -/
theorem title_step_advances_on_photo :
    ({ photo := some ["p1"] } : Msg).text = none ∧
    ({ photo := some ["p1"] } : Msg).caption = none ∧
    handleAdminInput 1 (fun _ => none) 1 { photo := some ["p1"] }
        (addContentSession .TITLE {} .movie 2) {} =
      ⟨some (addContentSession .COUNTRY { title := some "" } .movie 2), {},
        [.send 1 .askCountry]⟩ := by
  refine ⟨rfl, rfl, by decide⟩

/-- C7 amended: the steps whose required input kind is a photo or a video do
re-prompt without any state change when the medium is absent (`AddContent`
`VIDEO`/`POSTER`, `AddEpisode` `VIDEO`, `EditField` poster and movie file);
the text steps, however, accept a message of any kind and store its possibly
empty text or caption (shown here for `TITLE`). -/
theorem input_kind_gate_spec (superAdminId : Int) (getChat : String → Option Int)
    (chatId : Int) (msg : Msg) (stores : Stores)
    (hperm : hasPermission superAdminId stores.admins chatId Perm.movies = true) :
    (∀ (d : Draft) (ct : CType) (ts : Nat), msg.video = none →
      handleAdminInput superAdminId getChat chatId msg (addContentSession .VIDEO d ct ts) stores =
        ⟨some (addContentSession .VIDEO d ct ts), stores, [.send chatId .needVideo]⟩) ∧
    (∀ (d : Draft) (ct : CType) (ts : Nat), msg.photo = none →
      handleAdminInput superAdminId getChat chatId msg (addContentSession .POSTER d ct ts) stores =
        ⟨some (addContentSession .POSTER d ct ts), stores, [.send chatId .needPhoto]⟩) ∧
    (∀ (mid ts : Nat) (movie : Movie),
      stores.movies.find? (fun m => m.mid == mid) = some movie → msg.video = none →
      handleAdminInput superAdminId getChat chatId msg (addEpisodeSession .VIDEO mid ts) stores =
        ⟨some (addEpisodeSession .VIDEO mid ts), stores, [.send chatId .needEpisodeVideo]⟩) ∧
    (∀ (mid ts : Nat) (movie : Movie),
      stores.movies.find? (fun m => m.mid == mid) = some movie → msg.photo = none →
      handleAdminInput superAdminId getChat chatId msg (editFieldSession .posterId mid ts) stores =
        ⟨some (editFieldSession .posterId mid ts), stores, [.send chatId .needPhotoEdit]⟩) ∧
    (∀ (mid ts : Nat) (movie : Movie),
      stores.movies.find? (fun m => m.mid == mid) = some movie →
      movie.contentType = .movie → msg.video = none →
      handleAdminInput superAdminId getChat chatId msg (editFieldSession .fileId mid ts) stores =
        ⟨some (editFieldSession .fileId mid ts), stores, [.send chatId .needVideoEdit]⟩) ∧
    (∀ (d : Draft) (ct : CType) (ts : Nat),
      handleAdminInput superAdminId getChat chatId msg (addContentSession .TITLE d ct ts) stores =
        ⟨some (addContentSession .COUNTRY { d with title := some (sanitize msg.contentText) } ct ts),
          stores, [.send chatId .askCountry]⟩) := by
  refine ⟨?_, ?_, ?_, ?_, ?_, ?_⟩
  · intro d ct ts hv
    simp [handleAdminInput, addContentSession, hperm, hv]
  · intro d ct ts hp
    simp [handleAdminInput, addContentSession, hperm, hp]
  · intro mid ts movie hfind hv
    simp [handleAdminInput, addEpisodeSession, hperm, hfind, hv]
  · intro mid ts movie hfind hp
    simp [handleAdminInput, editFieldSession, hperm, hfind, hp]
  · intro mid ts movie hfind hct hv
    simp [handleAdminInput, editFieldSession, hperm, hfind, hct, hv]
  · intro d ct ts
    simp [handleAdminInput, addContentSession, hperm]

/-- C7 amended witness: a text-only message at the `VIDEO` step re-prompts
with no change; a text-only message at `EditField`'s movie-file step
re-prompts with no change. -/
theorem input_kind_gate_spec_witness :
    handleAdminInput 1 (fun _ => none) 1 { text := some "hi" }
        (addContentSession .VIDEO {} .movie 2) {} =
      ⟨some (addContentSession .VIDEO {} .movie 2), {}, [.send 1 .needVideo]⟩ ∧
    handleAdminInput 1 (fun _ => none) 1 { text := some "hi" }
        (editFieldSession .fileId 3 2) { movies := [{ mid := 3, code := 9 }] } =
      ⟨some (editFieldSession .fileId 3 2), { movies := [{ mid := 3, code := 9 }] },
        [.send 1 .needVideoEdit]⟩ := by
  refine ⟨?_, ?_⟩
  · exact (input_kind_gate_spec 1 (fun _ => none) 1 { text := some "hi" } {} rfl).1 {} .movie 2 rfl
  · exact (input_kind_gate_spec 1 (fun _ => none) 1 { text := some "hi" }
      { movies := [{ mid := 3, code := 9 }] } rfl).2.2.2.2.1 3 2 { mid := 3, code := 9 }
      (by decide) rfl rfl

end Kino
